import Mathlib

/-!
Shallow embedding of the `rate_limiter.core` module of the ratelimitex
repository (file `src/rate_limiter/core.py`), together with proofs about
its rate-limiting behaviour.

Timestamps and durations are modelled as rationals (`ℚ`), request counts
as integers, and Python `Optional` fields as `Option`.  Each function
below mirrors one method of `RateLimiter` in `core.py`; the impure call
`time.time()` becomes an explicit `now : ℚ` argument, and the
`asyncio.sleep` inside `acquire` becomes an explicit `wake : ℚ` argument
giving the clock value observed after the sleep (it is only consulted on
the branch where the source sleeps).
-/

namespace RateLimitEx

/-- The three strategies of `RateLimitStrategy` in the models module. -/
inductive RateLimitStrategy where
  | strict
  | burst
  | adaptive
deriving DecidableEq, Repr

/-- Modelled from the spec: the constants imported from the models module,
which is absent from `src/` (`DEFAULT_ADAPTIVE_MULTIPLIER` = `D`,
`MAX_ADAPTIVE_MULTIPLIER` = `M`, `ADAPTIVE_BACKOFF_FACTOR` = `BACKOFF`,
a fixed constant greater than 1, and `RATE_LIMIT_EXPIRY_SECONDS` =
`EXPIRY`, e.g. 900 seconds).  The development is parameterised over their
values. -/
structure AdaptiveConstants where
  D : ℚ
  M : ℚ
  BACKOFF : ℚ
  EXPIRY : ℚ
deriving DecidableEq, Repr

/-- The mutable feedback sub-record `config.dynamic_adjustments`
(`DynamicAdjustments` in the models module; field set as used by
`core.py` and described by the spec). -/
structure DynamicAdjustments where
  adaptive_multiplier : ℚ
  retry_after : Option ℤ
  retry_after_timestamp : Option ℚ
  time_window : Option ℚ
  time_window_timestamp : Option ℚ
  max_requests : Option ℤ
  max_requests_timestamp : Option ℚ
  remaining : Option ℤ
  remaining_timestamp : Option ℚ
deriving DecidableEq, Repr

/-- Modelled from the spec: the default feedback record has every
override unset and `adaptive_multiplier` equal to the default `D`. -/
def DynamicAdjustments.default (C : AdaptiveConstants) : DynamicAdjustments :=
  { adaptive_multiplier := C.D
    retry_after := none
    retry_after_timestamp := none
    time_window := none
    time_window_timestamp := none
    max_requests := none
    max_requests_timestamp := none
    remaining := none
    remaining_timestamp := none }

/-- `RateLimitConfig` (models module): the fields `core.py` reads and
writes.  `burst_size`, `burst_window`, `cooldown_period` are Optional in
the source. -/
structure RateLimitConfig where
  strategy : RateLimitStrategy
  max_requests : ℤ
  time_window : ℚ
  burst_size : Option ℤ
  burst_window : Option ℚ
  cooldown_period : Option ℚ
  dynamic_adjustments : DynamicAdjustments
deriving DecidableEq, Repr

/-- The mutable state of a `RateLimiter` instance (`core.py`, lines
50-62): the shared config object plus histories and counters. -/
structure RateLimiter where
  config : RateLimitConfig
  requests : List ℚ
  burst_requests : List ℚ
  total_requests : ℕ
  total_wait_time : ℚ
  max_wait_time : ℚ
  rate_limit_hits : ℕ
  last_dynamic_update : Option ℚ
  last_rate_limit_hit : Option ℚ
deriving DecidableEq, Repr

/-- Python truthiness of an `Optional[int]`: `None` and `0` are falsy. -/
def truthyZ : Option ℤ → Bool
  | none => false
  | some n => n != 0

/-- Python truthiness of an `Optional[float]`: `None` and `0.0` are falsy. -/
def truthyQ : Option ℚ → Bool
  | none => false
  | some x => x != 0

/-- `RateLimiter.__init__` (core.py lines 50-70): store the config and
empty state, then for the BURST strategy apply the default/flooring
adjustments to `burst_size` and `burst_window`.  The Python condition
`not self.config.burst_size or not self.config.burst_window` uses
truthiness, so a burst size or window of 0 also counts as unset, and the
branch sets BOTH fields. -/
def RateLimiter.init (cfg : RateLimitConfig) : RateLimiter :=
  let cfg :=
    if cfg.strategy = .burst then
      let cfg :=
        if !(truthyZ cfg.burst_size) || !(truthyQ cfg.burst_window) then
          { cfg with burst_size := some (cfg.max_requests * 2), burst_window := some 10 }
        else cfg
      if cfg.burst_size.getD 0 < cfg.max_requests then
        { cfg with burst_size := some cfg.max_requests }
      else cfg
    else cfg
  { config := cfg
    requests := []
    burst_requests := []
    total_requests := 0
    total_wait_time := 0
    max_wait_time := 0
    rate_limit_hits := 0
    last_dynamic_update := none
    last_rate_limit_hit := none }

/-- `_cleanup_old_requests` (core.py lines 266-272). -/
def cleanup_old_requests (now : ℚ) (s : RateLimiter) : RateLimiter :=
  let s := { s with requests := s.requests.filter (fun t => decide (now - t < s.config.time_window)) }
  if s.config.strategy = .burst then
    { s with burst_requests :=
        s.burst_requests.filter (fun t => decide (now - t < s.config.burst_window.getD 0)) }
  else s

/-- `_check_rate_limit_expiry` (core.py lines 94-110). -/
def check_rate_limit_expiry (C : AdaptiveConstants) (now : ℚ) (s : RateLimiter) : RateLimiter :=
  match s.last_rate_limit_hit with
  | none => s
  | some h =>
    if now - h > C.EXPIRY then
      let s := { s with last_rate_limit_hit := none }
      if s.config.strategy = .adaptive then
        if s.config.dynamic_adjustments.adaptive_multiplier > C.D then
          { s with config := { s.config with dynamic_adjustments :=
              { s.config.dynamic_adjustments with adaptive_multiplier := C.D } } }
        else s
      else s
    else s

/-- `_should_wait` (core.py lines 274-297).  In the adaptive branch the
Python test `if self.last_rate_limit_hit and ...` uses truthiness, so a
hit recorded at timestamp 0.0 is treated as no hit. -/
def should_wait (now : ℚ) (s : RateLimiter) : Bool :=
  match s.config.strategy with
  | .strict => decide ((s.requests.length : ℤ) ≥ s.config.max_requests)
  | .burst =>
      decide ((s.burst_requests.length : ℤ) ≥ s.config.burst_size.getD 0) ||
      decide ((s.requests.length : ℤ) ≥ s.config.max_requests)
  | .adaptive =>
      let threshold : ℚ :=
        if truthyQ s.last_rate_limit_hit &&
           decide (now - s.last_rate_limit_hit.getD 0 < 60) then 9/10 else 1
      decide ((s.requests.length : ℚ) ≥ (s.config.max_requests : ℚ) * threshold)

/-- `_calculate_wait_time` (core.py lines 299-342).  Returns 0 when the
request history is empty (line 301), whatever the strategy. -/
def calculate_wait_time (now : ℚ) (s : RateLimiter) : ℚ :=
  if s.requests.isEmpty then 0
  else
    match s.config.strategy with
    | .strict => max 0 (s.requests.head! + s.config.time_window - now)
    | .burst =>
        if (s.burst_requests.length : ℤ) ≥ s.config.burst_size.getD 0 then
          if truthyQ s.config.cooldown_period then s.config.cooldown_period.getD 0
          else max 0 (s.burst_requests.head! + s.config.burst_window.getD 0 - now)
        else max 0 (s.requests.head! + s.config.time_window - now)
    | .adaptive =>
        let d := s.config.dynamic_adjustments
        let retryWait : Option ℚ :=
          match d.retry_after, d.retry_after_timestamp with
          | some ra, some ts =>
            if now - ts < 60 then
              let adjusted := (ra : ℚ) - (now - ts)
              if adjusted > 0 then some adjusted else none
            else none
          | _, _ => none
        match retryWait with
        | some w => w
        | none =>
          let multiplier := d.adaptive_multiplier
          let excess : ℤ := (s.requests.length : ℤ) - s.config.max_requests
          let min_wait : ℚ :=
            if truthyQ s.last_rate_limit_hit &&
               decide (now - s.last_rate_limit_hit.getD 0 < 120) then
              (max 0 (1 - (now - s.last_rate_limit_hit.getD 0) / 120)) * 1
            else 0
          max min_wait ((excess : ℚ) * multiplier)

/-- `_record_request` (core.py lines 344-349). -/
def record_request (now : ℚ) (s : RateLimiter) : RateLimiter :=
  let s := { s with requests := s.requests ++ [now] }
  let s :=
    if s.config.strategy = .burst then
      { s with burst_requests := s.burst_requests ++ [now] }
    else s
  { s with total_requests := s.total_requests + 1 }

/-- `acquire` (core.py lines 72-92).  `now` is the clock read at entry;
`wake` is the clock read after the `asyncio.sleep` (used only on the
branch where the source sleeps).  Returns the new state together with the
wait the call charged (0 when it did not sleep). -/
def acquire (C : AdaptiveConstants) (now wake : ℚ) (s : RateLimiter) : RateLimiter × ℚ :=
  let s := cleanup_old_requests now s
  let s := check_rate_limit_expiry C now s
  let p :=
    if should_wait now s then
      let wt := calculate_wait_time now s
      if wt > 0 then
        let s := { s with total_wait_time := s.total_wait_time + wt,
                          max_wait_time := max s.max_wait_time wt }
        (cleanup_old_requests wake s, wt)
      else (s, 0)
    else (s, 0)
  (record_request now p.1, p.2)

/-- The literal list `RATE_LIMIT_HEADERS` (core.py lines 21-38),
duplicates included, in source order. -/
def RATE_LIMIT_HEADERS : List String :=
  [ "x-rate-limit-reset"
  , "x-rate-limit-remaining"
  , "x-rate-limit-limit"
  , "x-rate-limit-seconds"
  , "x-ratelimit-reset"
  , "x-ratelimit-remaining"
  , "x-ratelimit-limit"
  , "x-ratelimit-reset"
  , "x-rate-limit-reset"
  , "x-amzn-ratelimit-limit"
  , "retry-after" ]

/-- ASCII lowercasing of one character, modelling `str.lower()` on the
ASCII header names the routine handles. -/
def lowerChar (c : Char) : Char :=
  if 'A' ≤ c ∧ c ≤ 'Z' then Char.ofNat (c.toNat + 32) else c

/-- `str.lower()` of a string, as a character list. -/
def lowerStr (s : String) : List Char :=
  s.data.map lowerChar

/-- Substring occurrence test, modelling Python's `in` on strings. -/
def strContains (s pat : String) : Bool :=
  (List.range (s.data.length + 1)).any (fun i => pat.data.isPrefixOf (s.data.drop i))

/-- Python's `str.strip()` whitespace characters. -/
def pyWhitespace (c : Char) : Bool :=
  c == ' ' || c == '\t' || c == '\n' || c == '\r' || c == '\x0b' || c == '\x0c'

/-- Numeric value of a digit string. -/
def digitsVal (ds : List Char) : ℕ :=
  ds.foldl (fun a c => 10 * a + (c.toNat - 48)) 0

/-- Python `int(str)` on a string: optional surrounding whitespace, an
optional sign, then decimal digits; `none` when `int()` would raise. -/
def pyInt? (s : String) : Option ℤ :=
  let t := ((s.data.dropWhile pyWhitespace).reverse.dropWhile pyWhitespace).reverse
  let core := if t.head? = some '-' ∨ t.head? = some '+' then t.tail else t
  if core ≠ [] ∧ core.all Char.isDigit then
    some (if t.head? = some '-' then -(digitsVal core : ℤ) else (digitsVal core : ℤ))
  else none

/-- `HEADER_VALUE_PATTERN.search` (core.py line 41): the first maximal
run of digits in the string, if any. -/
def firstDigitRun (s : String) : Option ℕ :=
  let ds := (s.data.dropWhile (fun c => !c.isDigit)).takeWhile (fun c => c.isDigit)
  if ds.isEmpty then none else some (digitsVal ds)

/-- Lookup in a header mapping after lowercase normalisation of the keys
(core.py line 188 builds a dict with lowercased keys, so a later
duplicate key overwrites an earlier one). -/
def hget (hs : List (String × String)) (k : String) : Option String :=
  (((hs.map (fun p => (lowerStr p.1, p.2))).reverse).find? (fun p => p.1 == lowerStr k)).map (fun p => p.2)

/-- Accumulator of the header scan loop (core.py lines 191-227). -/
structure HeaderScan where
  reset_time : Option ℚ
  limit : Option ℤ
  remaining : Option ℤ
deriving DecidableEq, Repr

/-- One iteration of the loop body (core.py lines 218-227): classify a
recognized header by substring and record its numeric value. -/
def classifyHeader (now : ℚ) (acc : HeaderScan) (name : String) (v : ℕ) : HeaderScan :=
  if strContains name "reset" then
    { acc with reset_time := some (if (v : ℚ) > now + 3600 then (v : ℚ) else now + (v : ℚ)) }
  else if strContains name "limit" && !(strContains name "remaining") then
    { acc with limit := some (v : ℤ) }
  else if strContains name "remaining" then
    { acc with remaining := some (v : ℤ) }
  else acc

/-- The `for header in RATE_LIMIT_HEADERS` loop (core.py lines 210-227):
headers whose value holds no digit run are skipped. -/
def scanHeaders (now : ℚ) (headers : List (String × String)) : HeaderScan :=
  RATE_LIMIT_HEADERS.foldl
    (fun acc name =>
      match hget headers name with
      | none => acc
      | some v =>
        match firstDigitRun v with
        | none => acc
        | some n => classifyHeader now acc name n)
    ⟨none, none, none⟩

/-- `_process_rate_limit_headers` (core.py lines 177-264): record a
parseable `retry-after`, scan the known header list, then apply the
reset/limit/remaining updates and stamp `last_dynamic_update` when
anything was updated.  A `retry-after` value `int()` cannot parse is
silently skipped (the try/except of lines 198-207). -/
def process_rate_limit_headers (now : ℚ) (headers : List (String × String))
    (s : RateLimiter) : RateLimiter :=
  let retryStep : RateLimiter × Bool :=
    match hget headers "retry-after" with
    | some v =>
      match pyInt? v with
      | some ra =>
        ({ s with config := { s.config with dynamic_adjustments :=
            { s.config.dynamic_adjustments with
              retry_after := some ra, retry_after_timestamp := some now } } }, true)
      | none => (s, false)
    | none => (s, false)
  let s := retryStep.1
  let has_updated := retryStep.2
  let scan := scanHeaders now headers
  let resetStep : RateLimiter × Bool :=
    match scan.reset_time with
    | some rt =>
      let time_until_reset := max 0 (rt - now)
      if time_until_reset > 0 then
        ({ s with config := { s.config with
            time_window := time_until_reset,
            dynamic_adjustments := { s.config.dynamic_adjustments with
              time_window := some time_until_reset,
              time_window_timestamp := some now } } }, true)
      else (s, has_updated)
    | none => (s, has_updated)
  let s := resetStep.1
  let has_updated := resetStep.2
  let limitStep : RateLimiter × Bool :=
    match scan.limit with
    | some l =>
      ({ s with config := { s.config with
          max_requests := l,
          dynamic_adjustments := { s.config.dynamic_adjustments with
            max_requests := some l,
            max_requests_timestamp := some now } } }, true)
    | none => (s, has_updated)
  let s := limitStep.1
  let has_updated := limitStep.2
  let s :=
    match scan.remaining, scan.reset_time with
    | some r, some rt =>
      if decide (r ≤ 5) && decide (max 0 (rt - now) > 0) then
        { s with config := { s.config with dynamic_adjustments :=
            { s.config.dynamic_adjustments with
              remaining := some r, remaining_timestamp := some now } } }
      else s
    | _, _ => s
  if has_updated then { s with last_dynamic_update := some now } else s

/-- `update_from_response` (core.py lines 112-133).  The response object
is opaque in the source; the embedding takes the header mapping the
extractor (or the default `headers`-attribute fallback) resolved from
it. -/
def update_from_response (now : ℚ) (headers : List (String × String))
    (s : RateLimiter) : RateLimiter :=
  if s.config.strategy ≠ .adaptive then s
  else process_rate_limit_headers now headers s

/-- `update_from_error` (core.py lines 135-175).  The error object is
opaque; the embedding takes the header mapping resolved from it (via its
response's headers, its own headers, or the `retry after N` scan of its
string form — an error yielding nothing corresponds to `[]`). -/
def update_from_error (C : AdaptiveConstants) (now : ℚ)
    (headers : List (String × String)) (s : RateLimiter) : RateLimiter :=
  if s.config.strategy ≠ .adaptive then s
  else
    let s := { s with rate_limit_hits := s.rate_limit_hits + 1,
                      last_rate_limit_hit := some now }
    let new_multiplier :=
      min (s.config.dynamic_adjustments.adaptive_multiplier * C.BACKOFF) C.M
    let s := { s with config := { s.config with dynamic_adjustments :=
        { s.config.dynamic_adjustments with adaptive_multiplier := new_multiplier } } }
    process_rate_limit_headers now headers s

/-- `reset_rate_limit_tracking` (core.py lines 351-367). -/
def reset_rate_limit_tracking (C : AdaptiveConstants) (s : RateLimiter) : RateLimiter :=
  let s := { s with last_rate_limit_hit := none }
  if s.config.strategy = .adaptive then
    if s.config.dynamic_adjustments.adaptive_multiplier ≠ C.D then
      { s with config := { s.config with dynamic_adjustments :=
          { s.config.dynamic_adjustments with adaptive_multiplier := C.D } } }
    else s
  else s

/-- The snapshot record returned by `get_stats` (core.py lines 369-396;
`RateLimiterStats` of the models module). -/
structure RateLimiterStats where
  total_requests : ℕ
  total_wait_time : ℚ
  max_wait_time : ℚ
  current_rate : ℚ
  current_queue_size : ℕ
  rate_limit_hits : ℕ
  last_dynamic_update : Option ℚ
  dynamic_adjustments : Option DynamicAdjustments
  last_rate_limit_hit : Option ℚ
  time_since_last_rate_limit : Option ℚ
  rate_limit_expiry_in : Option ℚ
deriving DecidableEq, Repr

/-- `get_stats` (core.py lines 369-396): a pure read of the state. -/
def get_stats (C : AdaptiveConstants) (now : ℚ) (s : RateLimiter) : RateLimiterStats :=
  let window_start := now - s.config.time_window
  let recent := (s.requests.filter (fun r => decide (r > window_start))).length
  { total_requests := s.total_requests
    total_wait_time := s.total_wait_time
    max_wait_time := s.max_wait_time
    current_rate := (recent : ℚ) / (s.config.time_window / 60)
    current_queue_size := s.requests.length
    rate_limit_hits := s.rate_limit_hits
    last_dynamic_update := s.last_dynamic_update
    dynamic_adjustments :=
      if s.last_dynamic_update.isSome then some s.config.dynamic_adjustments else none
    last_rate_limit_hit := s.last_rate_limit_hit
    time_since_last_rate_limit := s.last_rate_limit_hit.map (fun h => now - h)
    rate_limit_expiry_in := s.last_rate_limit_hit.map (fun h => max 0 (C.EXPIRY - (now - h))) }

/-- A sequence of `acquire` calls at the given entry times; each call's
sleep is modelled as letting exactly the computed wait elapse, so the
post-sleep clock is `t + wait`.  Returns the final state and the list of
charged waits. -/
def acquireSeq (C : AdaptiveConstants) : List ℚ → RateLimiter → RateLimiter × List ℚ
  | [], s => (s, [])
  | t :: ts, s =>
    let w := (acquire C t t s).2
    let r := acquire C t (t + w) s
    let r2 := acquireSeq C ts r.1
    (r2.1, r.2 :: r2.2)

/-- The states a RateLimiter can reach from a fresh construction (with
the default feedback record of the models module) through the mutating
public operations: `acquire`, `update_from_response`, `update_from_error`
and `reset_rate_limit_tracking`; `get_stats` is a pure read and does not
change the state. -/
inductive Reachable (C : AdaptiveConstants) : RateLimiter → Prop where
  | init : ∀ cfg, cfg.dynamic_adjustments = DynamicAdjustments.default C →
      Reachable C (RateLimiter.init cfg)
  | acquire_step : ∀ s now wake, Reachable C s → Reachable C (acquire C now wake s).1
  | response_step : ∀ s now hs, Reachable C s → Reachable C (update_from_response now hs s)
  | error_step : ∀ s now hs, Reachable C s → Reachable C (update_from_error C now hs s)
  | reset_step : ∀ s, Reachable C s → Reachable C (reset_rate_limit_tracking C s)

/-- Concrete instantiation of the spec-modelled constants used by the
witness computations: D = 1, M = 2, BACKOFF = 2, EXPIRY = 900. -/
def Cex : AdaptiveConstants := ⟨1, 2, 2, 900⟩

/-- Strict configuration: 2 requests per 10-second window. -/
def strictCfgA : RateLimitConfig :=
  { strategy := .strict, max_requests := 2, time_window := 10,
    burst_size := none, burst_window := none, cooldown_period := none,
    dynamic_adjustments := DynamicAdjustments.default Cex }

/-- Strict configuration: 1 request per 10-second window. -/
def strictCfgB : RateLimitConfig :=
  { strictCfgA with max_requests := 1 }

/-- A strict limiter that already recorded one request at time 0. -/
def strictStateB : RateLimiter :=
  { RateLimiter.init strictCfgB with requests := [0] }

/-- The configuration of the keyed-independence test in
src/tests/test_core.py (max_requests 1, time_window 5, Strict). -/
def keyedCfg : RateLimitConfig :=
  { strictCfgA with max_requests := 1, time_window := 5 }

/-- The Burst scenario of the spec: max_requests 2, time_window 10,
burst_size 3, burst_window 1, no cooldown. -/
def burstCfgA : RateLimitConfig :=
  { strictCfgA with strategy := .burst, burst_size := some 3, burst_window := some 1 }

/-- The same Burst configuration with a 5-second cooldown period. -/
def burstCfgCooldown : RateLimitConfig :=
  { burstCfgA with cooldown_period := some 5 }

/-- A Burst limiter whose burst history is saturated (3 entries). -/
def burstSatState : RateLimiter :=
  { RateLimiter.init burstCfgCooldown with requests := [0], burst_requests := [0, 0, 0] }

/-- A Burst configuration supplying burst_size 5 but leaving
burst_window unset. -/
def burstCfgSizeOnly : RateLimitConfig :=
  { strictCfgA with strategy := .burst, burst_size := some 5, burst_window := none }

/-- Adaptive configuration: 1 request per 10-second window. -/
def adaptiveCfgA : RateLimitConfig :=
  { strictCfgA with strategy := .adaptive, max_requests := 1 }

/-- An adaptive limiter that already recorded one request at time 0. -/
def adaptiveState1 : RateLimiter :=
  { RateLimiter.init adaptiveCfgA with requests := [0] }

/-- An adaptive limiter with a rate-limit hit recorded at time 0. -/
def adaptiveStateHit : RateLimiter :=
  { RateLimiter.init adaptiveCfgA with last_rate_limit_hit := some 0 }

/-! Helper lemmas: how each operation acts on the individual fields. -/

theorem cleanup_config (now : ℚ) (s : RateLimiter) :
    (cleanup_old_requests now s).config = s.config := by
  unfold cleanup_old_requests; dsimp only; split <;> rfl

theorem cleanup_requests (now : ℚ) (s : RateLimiter) :
    (cleanup_old_requests now s).requests
      = s.requests.filter (fun t => decide (now - t < s.config.time_window)) := by
  unfold cleanup_old_requests; dsimp only; split <;> rfl

theorem cleanup_last_hit (now : ℚ) (s : RateLimiter) :
    (cleanup_old_requests now s).last_rate_limit_hit = s.last_rate_limit_hit := by
  unfold cleanup_old_requests; dsimp only; split <;> rfl

theorem cleanup_counters (now : ℚ) (s : RateLimiter) :
    (cleanup_old_requests now s).total_requests = s.total_requests
    ∧ (cleanup_old_requests now s).total_wait_time = s.total_wait_time
    ∧ (cleanup_old_requests now s).rate_limit_hits = s.rate_limit_hits := by
  unfold cleanup_old_requests; dsimp only; split <;> exact ⟨rfl, rfl, rfl⟩

theorem expiry_requests (C : AdaptiveConstants) (now : ℚ) (s : RateLimiter) :
    (check_rate_limit_expiry C now s).requests = s.requests := by
  obtain ⟨cfg, reqs, breqs, tr, twt, mwt, hits, ldu, lrh⟩ := s
  unfold check_rate_limit_expiry
  rcases lrh with _ | h
  · rfl
  · dsimp only
    split <;> [skip; rfl]
    split <;> [skip; rfl]
    split <;> rfl

theorem expiry_burst_requests (C : AdaptiveConstants) (now : ℚ) (s : RateLimiter) :
    (check_rate_limit_expiry C now s).burst_requests = s.burst_requests := by
  obtain ⟨cfg, reqs, breqs, tr, twt, mwt, hits, ldu, lrh⟩ := s
  unfold check_rate_limit_expiry
  rcases lrh with _ | h
  · rfl
  · dsimp only
    split <;> [skip; rfl]
    split <;> [skip; rfl]
    split <;> rfl

theorem expiry_config_frame (C : AdaptiveConstants) (now : ℚ) (s : RateLimiter) :
    (check_rate_limit_expiry C now s).config.strategy = s.config.strategy
    ∧ (check_rate_limit_expiry C now s).config.max_requests = s.config.max_requests
    ∧ (check_rate_limit_expiry C now s).config.time_window = s.config.time_window
    ∧ (check_rate_limit_expiry C now s).config.burst_size = s.config.burst_size
    ∧ (check_rate_limit_expiry C now s).config.burst_window = s.config.burst_window
    ∧ (check_rate_limit_expiry C now s).config.cooldown_period = s.config.cooldown_period
    ∧ (check_rate_limit_expiry C now s).config.dynamic_adjustments.retry_after
        = s.config.dynamic_adjustments.retry_after
    ∧ (check_rate_limit_expiry C now s).config.dynamic_adjustments.retry_after_timestamp
        = s.config.dynamic_adjustments.retry_after_timestamp := by
  obtain ⟨cfg, reqs, breqs, tr, twt, mwt, hits, ldu, lrh⟩ := s
  unfold check_rate_limit_expiry
  rcases lrh with _ | h
  · exact ⟨rfl, rfl, rfl, rfl, rfl, rfl, rfl, rfl⟩
  · dsimp only
    split
    · split
      · split <;> exact ⟨rfl, rfl, rfl, rfl, rfl, rfl, rfl, rfl⟩
      · exact ⟨rfl, rfl, rfl, rfl, rfl, rfl, rfl, rfl⟩
    · exact ⟨rfl, rfl, rfl, rfl, rfl, rfl, rfl, rfl⟩

theorem expiry_mult_cases (C : AdaptiveConstants) (now : ℚ) (s : RateLimiter) :
    (check_rate_limit_expiry C now s).config.dynamic_adjustments.adaptive_multiplier
        = s.config.dynamic_adjustments.adaptive_multiplier
    ∨ (check_rate_limit_expiry C now s).config.dynamic_adjustments.adaptive_multiplier = C.D := by
  obtain ⟨cfg, reqs, breqs, tr, twt, mwt, hits, ldu, lrh⟩ := s
  unfold check_rate_limit_expiry
  rcases lrh with _ | h
  · exact Or.inl rfl
  · dsimp only
    split
    · split
      · split
        · exact Or.inr rfl
        · exact Or.inl rfl
      · exact Or.inl rfl
    · exact Or.inl rfl

theorem expiry_of_none (C : AdaptiveConstants) (now : ℚ) (s : RateLimiter)
    (h : s.last_rate_limit_hit = none) :
    check_rate_limit_expiry C now s = s := by
  obtain ⟨cfg, reqs, breqs, tr, twt, mwt, hits, ldu, lrh⟩ := s
  cases h
  rfl

theorem expiry_last_hit_cases (C : AdaptiveConstants) (now : ℚ) (s : RateLimiter) :
    (check_rate_limit_expiry C now s).last_rate_limit_hit = s.last_rate_limit_hit
    ∨ (check_rate_limit_expiry C now s).last_rate_limit_hit = none := by
  obtain ⟨cfg, reqs, breqs, tr, twt, mwt, hits, ldu, lrh⟩ := s
  unfold check_rate_limit_expiry
  rcases lrh with _ | h
  · exact Or.inl rfl
  · dsimp only
    split
    · split
      · split
        · exact Or.inr rfl
        · exact Or.inr rfl
      · exact Or.inr rfl
    · exact Or.inl rfl

theorem record_config (now : ℚ) (s : RateLimiter) :
    (record_request now s).config = s.config := by
  unfold record_request; dsimp only; split <;> rfl

theorem record_requests (now : ℚ) (s : RateLimiter) :
    (record_request now s).requests = s.requests ++ [now] := by
  unfold record_request; dsimp only; split <;> rfl

theorem record_last_hit (now : ℚ) (s : RateLimiter) :
    (record_request now s).last_rate_limit_hit = s.last_rate_limit_hit := by
  unfold record_request; dsimp only; split <;> rfl

theorem acquire_of_no_wait (C : AdaptiveConstants) (now wake : ℚ) (s : RateLimiter)
    (h : should_wait now (check_rate_limit_expiry C now (cleanup_old_requests now s)) = false) :
    acquire C now wake s
      = (record_request now (check_rate_limit_expiry C now (cleanup_old_requests now s)), 0) := by
  unfold acquire
  dsimp only
  rw [h]
  simp

theorem acquire_wait_of_wait (C : AdaptiveConstants) (now wake : ℚ) (s : RateLimiter)
    (h : should_wait now (check_rate_limit_expiry C now (cleanup_old_requests now s)) = true) :
    (acquire C now wake s).2
      = max 0 (calculate_wait_time now (check_rate_limit_expiry C now (cleanup_old_requests now s))) := by
  unfold acquire
  dsimp only
  rw [h]
  rw [if_pos rfl]
  split
  · rename_i hpos
    rw [max_eq_right (le_of_lt hpos)]
  · rename_i hpos
    rw [max_eq_left (le_of_not_lt hpos)]

theorem should_wait_strict (now : ℚ) (s : RateLimiter) (h : s.config.strategy = .strict) :
    should_wait now s = decide ((s.requests.length : ℤ) ≥ s.config.max_requests) := by
  unfold should_wait
  rw [h]

theorem calc_wait_strict (now : ℚ) (s : RateLimiter) (h : s.config.strategy = .strict)
    (hne : s.requests ≠ []) :
    calculate_wait_time now s = max 0 (s.requests.head! + s.config.time_window - now) := by
  unfold calculate_wait_time
  rw [if_neg (by simpa using hne), h]

/-- Zero-wait induction for the Strict strategy: if at each call the
requests recorded so far plus the calls up to the current one never put
more than `max_requests` timestamps inside the trailing window of the
current call time, then no call in the sequence ever waits. -/
theorem strict_zero_wait_run (C : AdaptiveConstants) :
    ∀ (ts : List ℚ) (s : RateLimiter),
      s.config.strategy = .strict →
      s.last_rate_limit_hit = none →
      0 < s.config.time_window →
      (∀ i, (hi : i < ts.length) →
        (((s.requests ++ ts.take (i+1)).countP
            (fun u => decide (ts[i] - u < s.config.time_window)) : ℤ) ≤ s.config.max_requests)) →
      ∀ w ∈ (acquireSeq C ts s).2, w = 0 := by
  intro ts
  induction ts with
  | nil =>
    intro s _ _ _ _ w hw
    simp [acquireSeq] at hw
  | cons t ts ih =>
    intro s hstrat hhit hW hcount w hw
    have hs1c : (cleanup_old_requests t s).config = s.config := cleanup_config t s
    have hs1h : (cleanup_old_requests t s).last_rate_limit_hit = none := by
      rw [cleanup_last_hit]; exact hhit
    have hex : check_rate_limit_expiry C t (cleanup_old_requests t s) = cleanup_old_requests t s :=
      expiry_of_none C t _ hs1h
    have hlen : ((cleanup_old_requests t s).requests.length : ℤ) < s.config.max_requests := by
      have h0 := hcount 0 (Nat.succ_pos _)
      simp only [List.take_succ_cons, List.take_zero, List.getElem_cons_zero,
        List.countP_append, List.countP_singleton] at h0
      simp [hW] at h0
      rw [cleanup_requests, ← List.countP_eq_length_filter]
      omega
    have hsw : should_wait t (check_rate_limit_expiry C t (cleanup_old_requests t s)) = false := by
      rw [hex, should_wait_strict t _ (by rw [hs1c]; exact hstrat)]
      rw [hs1c]
      simpa using hlen
    have hacq : ∀ wake, acquire C t wake s = (record_request t (cleanup_old_requests t s), 0) := by
      intro wake
      rw [acquire_of_no_wait C t wake s hsw, hex]
    rw [acquireSeq] at hw
    simp only [hacq] at hw
    rcases List.mem_cons.mp hw with hw0 | hwrest
    · exact hw0
    · refine ih (record_request t (cleanup_old_requests t s)) ?_ ?_ ?_ ?_ w hwrest
      · rw [record_config, hs1c]; exact hstrat
      · rw [record_last_hit]; exact hs1h
      · rw [record_config, hs1c]; exact hW
      · intro i hi
        have hstep := hcount (i+1) (by simpa using Nat.succ_lt_succ hi)
        simp only [List.take_succ_cons, List.getElem_cons_succ] at hstep
        rw [record_config, hs1c, record_requests, cleanup_requests]
        have hsub :
            List.Sublist
              ((s.requests.filter (fun u => decide (t - u < s.config.time_window)) ++ [t])
                ++ ts.take (i+1))
              (s.requests ++ (t :: ts.take (i+1))) := by
          rw [List.append_assoc]
          exact (List.filter_sublist s.requests).append_right (t :: ts.take (i+1))
        have hmono := hsub.countP_le (fun u => decide (ts[i] - u < s.config.time_window))
        calc (((s.requests.filter (fun u => decide (t - u < s.config.time_window)) ++ [t])
                ++ ts.take (i+1)).countP
                (fun u => decide (ts[i] - u < s.config.time_window)) : ℤ)
            ≤ ((s.requests ++ (t :: ts.take (i+1))).countP
                (fun u => decide (ts[i] - u < s.config.time_window)) : ℤ) := by
              exact_mod_cast hmono
          _ ≤ s.config.max_requests := hstep

theorem init_requests (cfg : RateLimitConfig) : (RateLimiter.init cfg).requests = [] := rfl

theorem init_last_hit (cfg : RateLimitConfig) :
    (RateLimiter.init cfg).last_rate_limit_hit = none := rfl

theorem init_config_of_not_burst (cfg : RateLimitConfig) (h : cfg.strategy ≠ .burst) :
    (RateLimiter.init cfg).config = cfg := by
  unfold RateLimiter.init
  dsimp only
  rw [if_neg h]

/-- C1: with the Strict strategy, a sequence of acquire calls in which at
most `max_requests` calls fall inside the trailing `time_window` of each
call completes every call with zero wait; and any call that finds
`len(history) >= max_requests` after cleanup waits exactly
`max(0, history[0] + time_window - now)`. -/
theorem C1_strict_wait (C : AdaptiveConstants) :
    (∀ (cfg : RateLimitConfig) (ts : List ℚ),
       cfg.strategy = .strict →
       0 < cfg.time_window →
       (∀ i, (hi : i < ts.length) →
         (((ts.take (i+1)).countP (fun u => decide (ts[i] - u < cfg.time_window)) : ℤ)
            ≤ cfg.max_requests)) →
       ∀ w ∈ (acquireSeq C ts (RateLimiter.init cfg)).2, w = 0)
    ∧ (∀ (s : RateLimiter) (now wake : ℚ),
       s.config.strategy = .strict →
       0 < s.config.max_requests →
       s.config.max_requests ≤ ((cleanup_old_requests now s).requests.length : ℤ) →
       (acquire C now wake s).2
         = max 0 ((cleanup_old_requests now s).requests.head! + s.config.time_window - now)) := by
  constructor
  · intro cfg ts hstrat hW hcount
    have hc : (RateLimiter.init cfg).config = cfg :=
      init_config_of_not_burst cfg (by rw [hstrat]; intro hc; cases hc)
    refine strict_zero_wait_run C ts (RateLimiter.init cfg) ?_ ?_ ?_ ?_
    · rw [hc]; exact hstrat
    · exact init_last_hit cfg
    · rw [hc]; exact hW
    · intro i hi
      rw [hc, init_requests, List.nil_append]
      exact hcount i hi
  · intro s now wake hstrat hmax hlen
    have hs1c : (cleanup_old_requests now s).config = s.config := cleanup_config now s
    have hexc := expiry_config_frame C now (cleanup_old_requests now s)
    have hexr := expiry_requests C now (cleanup_old_requests now s)
    have hsw : should_wait now (check_rate_limit_expiry C now (cleanup_old_requests now s)) = true := by
      rw [should_wait_strict now _ (by rw [hexc.1, hs1c]; exact hstrat)]
      rw [hexr, hexc.2.1, hs1c]
      simpa using hlen
    have hne : (check_rate_limit_expiry C now (cleanup_old_requests now s)).requests ≠ [] := by
      rw [hexr]
      intro hnil
      rw [hnil] at hlen
      simp at hlen
      omega
    rw [acquire_wait_of_wait C now wake s hsw,
      calc_wait_strict now _ (by rw [hexc.1, hs1c]; exact hstrat) hne,
      hexr, hexc.2.2.1, hs1c, ← max_assoc, max_self]

/-- Witness for C1: with max_requests 2 and window 10, the calls at
times 0, 1, 20 all have zero wait; and a limiter with max_requests 1 and
one live entry waits by the oldest-entry formula (concretely 7 seconds at
time 3). -/
theorem C1_strict_wait_witness :
    (∀ w ∈ (acquireSeq Cex [0, 1, 20] (RateLimiter.init strictCfgA)).2, w = 0)
    ∧ (acquire Cex 3 10 strictStateB).2
        = max 0 ((cleanup_old_requests 3 strictStateB).requests.head!
            + strictStateB.config.time_window - 3)
    ∧ (acquire Cex 3 10 strictStateB).2 = 7 := by
  refine ⟨(C1_strict_wait Cex).1 strictCfgA [0, 1, 20] rfl
      (of_decide_eq_true (by with_unfolding_all rfl))
      (of_decide_eq_true (by with_unfolding_all rfl)),
    (C1_strict_wait Cex).2 strictStateB 3 10 rfl
      (of_decide_eq_true (by with_unfolding_all rfl))
      (of_decide_eq_true (by with_unfolding_all rfl)),
    by with_unfolding_all rfl⟩

theorem should_wait_burst (now : ℚ) (s : RateLimiter) (h : s.config.strategy = .burst) :
    should_wait now s
      = (decide ((s.burst_requests.length : ℤ) ≥ s.config.burst_size.getD 0) ||
         decide ((s.requests.length : ℤ) ≥ s.config.max_requests)) := by
  unfold should_wait
  rw [h]

theorem calc_wait_burst_saturated (now : ℚ) (s : RateLimiter)
    (h : s.config.strategy = .burst) (hne : s.requests ≠ [])
    (hsat : (s.burst_requests.length : ℤ) ≥ s.config.burst_size.getD 0) :
    calculate_wait_time now s
      = (if truthyQ s.config.cooldown_period then s.config.cooldown_period.getD 0
         else max 0 (s.burst_requests.head! + s.config.burst_window.getD 0 - now)) := by
  unfold calculate_wait_time
  rw [if_neg (by simpa using hne), h]
  dsimp only
  rw [if_pos hsat]

/-- Counterexample to C2: in the spec's own Burst scenario
(max_requests 2, time_window 10, burst_size 3, burst_window 1) the three
immediate calls do NOT all get zero wait — the third call already trips
the main-window check `len(history) >= max_requests` and waits 10
seconds. -/
theorem C2_burst_counterexample :
    (acquireSeq Cex [0, 0, 0] (RateLimiter.init burstCfgA)).2 = [0, 0, 10]
    ∧ ¬ (∀ w ∈ (acquireSeq Cex [0, 0, 0] (RateLimiter.init burstCfgA)).2, w = 0) := by
  constructor
  · with_unfolding_all rfl
  · intro h
    have h10 := h 10 (by rw [(by with_unfolding_all rfl :
      (acquireSeq Cex [0, 0, 0] (RateLimiter.init burstCfgA)).2 = [0, 0, 10])]; simp)
    norm_num at h10

/-- C2 as amended: a Burst call that finds its burst history at or above
burst_size after cleanup waits cooldown_period when that is set (nonzero),
else until the oldest burst entry leaves the burst window; but the
first burst_size calls are only wait-free while the main window also has
fewer than max_requests entries — in the spec's scenario the first two
immediate calls get zero wait and the third waits 10 seconds on the main
window. -/
theorem C2_burst_amended (C : AdaptiveConstants) :
    (∀ (s : RateLimiter) (now wake : ℚ),
       s.config.strategy = .burst →
       ((check_rate_limit_expiry C now (cleanup_old_requests now s)).burst_requests.length : ℤ)
           ≥ (check_rate_limit_expiry C now (cleanup_old_requests now s)).config.burst_size.getD 0 →
       (check_rate_limit_expiry C now (cleanup_old_requests now s)).requests ≠ [] →
       (acquire C now wake s).2
         = max 0 (if truthyQ (check_rate_limit_expiry C now (cleanup_old_requests now s)).config.cooldown_period
                  then (check_rate_limit_expiry C now (cleanup_old_requests now s)).config.cooldown_period.getD 0
                  else max 0 ((check_rate_limit_expiry C now (cleanup_old_requests now s)).burst_requests.head!
                    + (check_rate_limit_expiry C now (cleanup_old_requests now s)).config.burst_window.getD 0 - now)))
    ∧ (acquireSeq Cex [0, 0, 0] (RateLimiter.init burstCfgA)).2 = [0, 0, 10] := by
  constructor
  · intro s now wake hstrat hsat hne
    have hs1c : (cleanup_old_requests now s).config = s.config := cleanup_config now s
    have hexc := expiry_config_frame C now (cleanup_old_requests now s)
    have hsw : should_wait now (check_rate_limit_expiry C now (cleanup_old_requests now s)) = true := by
      rw [should_wait_burst now _ (by rw [hexc.1, hs1c]; exact hstrat)]
      rw [Bool.or_eq_true]
      exact Or.inl (by simpa using hsat)
    rw [acquire_wait_of_wait C now wake s hsw,
      calc_wait_burst_saturated now _ (by rw [hexc.1, hs1c]; exact hstrat) hne hsat]
  · with_unfolding_all rfl

/-- Witness for the amended C2: a saturated burst history (3 entries,
burst_size 3) with a 5-second cooldown makes the next call wait exactly
the cooldown. -/
theorem C2_burst_amended_witness :
    (acquire Cex 0 5 burstSatState).2
      = max 0 (if truthyQ (check_rate_limit_expiry Cex 0 (cleanup_old_requests 0 burstSatState)).config.cooldown_period
               then (check_rate_limit_expiry Cex 0 (cleanup_old_requests 0 burstSatState)).config.cooldown_period.getD 0
               else max 0 ((check_rate_limit_expiry Cex 0 (cleanup_old_requests 0 burstSatState)).burst_requests.head!
                 + (check_rate_limit_expiry Cex 0 (cleanup_old_requests 0 burstSatState)).config.burst_window.getD 0 - 0))
    ∧ (acquire Cex 0 5 burstSatState).2 = 5 := by
  refine ⟨(C2_burst_amended Cex).1 burstSatState 0 5 rfl
      (of_decide_eq_true (by with_unfolding_all rfl))
      (by with_unfolding_all decide), by with_unfolding_all rfl⟩

/-- C3 evaluated at the failing configuration of the keyed test
(test_rate_limiter_different_keys): the embedded acquire has no key
parameter and a single shared history, so the second of two immediate
calls — which the test issues under a different key and expects to be
wait-free — waits the full 5-second window. -/
theorem C3_keyed_shared_history :
    (acquire Cex 0 5 (acquire Cex 0 0 (RateLimiter.init keyedCfg)).1).2 = 5
    ∧ (acquire Cex 0 0 (RateLimiter.init keyedCfg)).2 = 0 := by
  constructor
  · with_unfolding_all rfl
  · with_unfolding_all rfl

theorem process_mult (now : ℚ) (hs : List (String × String)) (s : RateLimiter) :
    (process_rate_limit_headers now hs s).config.dynamic_adjustments.adaptive_multiplier
      = s.config.dynamic_adjustments.adaptive_multiplier := by
  unfold process_rate_limit_headers
  dsimp only
  repeat' split
  all_goals rfl

theorem process_strategy (now : ℚ) (hs : List (String × String)) (s : RateLimiter) :
    (process_rate_limit_headers now hs s).config.strategy = s.config.strategy := by
  unfold process_rate_limit_headers
  dsimp only
  repeat' split
  all_goals rfl

theorem process_requests (now : ℚ) (hs : List (String × String)) (s : RateLimiter) :
    (process_rate_limit_headers now hs s).requests = s.requests := by
  unfold process_rate_limit_headers
  dsimp only
  repeat' split
  all_goals rfl

theorem process_last_hit (now : ℚ) (hs : List (String × String)) (s : RateLimiter) :
    (process_rate_limit_headers now hs s).last_rate_limit_hit = s.last_rate_limit_hit := by
  unfold process_rate_limit_headers
  dsimp only
  repeat' split
  all_goals rfl

theorem update_from_response_mult (now : ℚ) (hs : List (String × String)) (s : RateLimiter) :
    (update_from_response now hs s).config.dynamic_adjustments.adaptive_multiplier
      = s.config.dynamic_adjustments.adaptive_multiplier := by
  unfold update_from_response
  split
  · rfl
  · exact process_mult now hs s

theorem update_from_error_mult (C : AdaptiveConstants) (now : ℚ)
    (hs : List (String × String)) (s : RateLimiter) :
    (update_from_error C now hs s).config.dynamic_adjustments.adaptive_multiplier
      = (if s.config.strategy = .adaptive
         then min (s.config.dynamic_adjustments.adaptive_multiplier * C.BACKOFF) C.M
         else s.config.dynamic_adjustments.adaptive_multiplier) := by
  unfold update_from_error
  split
  · rfl
  · rename_i h
    rw [process_mult, if_pos (not_not.mp h)]

theorem reset_mult (C : AdaptiveConstants) (s : RateLimiter) :
    (reset_rate_limit_tracking C s).config.dynamic_adjustments.adaptive_multiplier
      = (if s.config.strategy = .adaptive then C.D
         else s.config.dynamic_adjustments.adaptive_multiplier) := by
  unfold reset_rate_limit_tracking
  dsimp only
  split
  · split
    · rfl
    · rename_i hne
      exact not_not.mp hne
  · rfl

theorem acquire_dyn (C : AdaptiveConstants) (now wake : ℚ) (s : RateLimiter) :
    (acquire C now wake s).1.config.dynamic_adjustments
      = (check_rate_limit_expiry C now (cleanup_old_requests now s)).config.dynamic_adjustments := by
  unfold acquire
  dsimp only
  split
  · split
    · rw [record_config, cleanup_config]
    · rw [record_config]
  · rw [record_config]

theorem acquire_mult_cases (C : AdaptiveConstants) (now wake : ℚ) (s : RateLimiter) :
    (acquire C now wake s).1.config.dynamic_adjustments.adaptive_multiplier
        = s.config.dynamic_adjustments.adaptive_multiplier
    ∨ (acquire C now wake s).1.config.dynamic_adjustments.adaptive_multiplier = C.D := by
  rw [acquire_dyn]
  rcases expiry_mult_cases C now (cleanup_old_requests now s) with h | h
  · rw [h, cleanup_config]
    exact Or.inl rfl
  · rw [h]
    exact Or.inr rfl

theorem init_dyn (cfg : RateLimitConfig) :
    (RateLimiter.init cfg).config.dynamic_adjustments = cfg.dynamic_adjustments := by
  unfold RateLimiter.init
  dsimp only
  repeat' split
  all_goals rfl

/-- C4: starting from a freshly constructed limiter (with the default
feedback record), every mutating operation keeps adaptive_multiplier in
the closed interval [D, M]; get_stats is a pure read and does not touch
the state at all. -/
theorem C4_multiplier_invariant (C : AdaptiveConstants)
    (hD : 0 < C.D) (hDM : C.D ≤ C.M) (hB : 1 ≤ C.BACKOFF)
    (s : RateLimiter) (h : Reachable C s) :
    C.D ≤ s.config.dynamic_adjustments.adaptive_multiplier
    ∧ s.config.dynamic_adjustments.adaptive_multiplier ≤ C.M := by
  induction h with
  | init cfg hcfg =>
    rw [init_dyn, hcfg]
    exact ⟨le_refl _, hDM⟩
  | acquire_step s now wake _ ih =>
    rcases acquire_mult_cases C now wake s with hm | hm
    · rw [hm]; exact ih
    · rw [hm]; exact ⟨le_refl _, hDM⟩
  | response_step s now hs _ ih =>
    rw [update_from_response_mult]; exact ih
  | error_step s now hs _ ih =>
    rw [update_from_error_mult]
    split
    · constructor
      · refine le_min ?_ hDM
        calc C.D ≤ s.config.dynamic_adjustments.adaptive_multiplier := ih.1
          _ = s.config.dynamic_adjustments.adaptive_multiplier * 1 := by ring
          _ ≤ s.config.dynamic_adjustments.adaptive_multiplier * C.BACKOFF := by
              exact mul_le_mul_of_nonneg_left hB (le_trans (le_of_lt hD) ih.1)
      · exact min_le_right _ _
    · exact ih
  | reset_step s _ ih =>
    rw [reset_mult]
    split
    · exact ⟨le_refl _, hDM⟩
    · exact ih

/-- Witness for C4: the concrete constants D = 1, M = 2, BACKOFF = 2
satisfy the hypotheses, a freshly constructed strict limiter is
reachable, and its multiplier 1 lies in [1, 2]. -/
theorem C4_multiplier_invariant_witness :
    Cex.D ≤ (RateLimiter.init strictCfgA).config.dynamic_adjustments.adaptive_multiplier
    ∧ (RateLimiter.init strictCfgA).config.dynamic_adjustments.adaptive_multiplier ≤ Cex.M :=
  C4_multiplier_invariant Cex (of_decide_eq_true (by with_unfolding_all rfl))
    (of_decide_eq_true (by with_unfolding_all rfl))
    (of_decide_eq_true (by with_unfolding_all rfl))
    (RateLimiter.init strictCfgA) (Reachable.init strictCfgA rfl)

theorem acquire_last_hit (C : AdaptiveConstants) (now wake : ℚ) (s : RateLimiter) :
    (acquire C now wake s).1.last_rate_limit_hit
      = (check_rate_limit_expiry C now (cleanup_old_requests now s)).last_rate_limit_hit := by
  unfold acquire
  dsimp only
  split
  · split
    · rw [record_last_hit, cleanup_last_hit]
    · rw [record_last_hit]
  · rw [record_last_hit]

theorem expiry_adaptive_reset (C : AdaptiveConstants) (now hts : ℚ) (s : RateLimiter)
    (hstrat : s.config.strategy = .adaptive)
    (hh : s.last_rate_limit_hit = some hts)
    (hexp : now - hts > C.EXPIRY)
    (hD : C.D ≤ s.config.dynamic_adjustments.adaptive_multiplier) :
    (check_rate_limit_expiry C now s).last_rate_limit_hit = none
    ∧ (check_rate_limit_expiry C now s).config.dynamic_adjustments.adaptive_multiplier = C.D := by
  unfold check_rate_limit_expiry
  rw [hh]
  dsimp only
  rw [if_pos hexp]
  split
  · split
    · exact ⟨rfl, rfl⟩
    · rename_i hgt
      exact ⟨rfl, le_antisymm (not_lt.mp hgt) hD⟩
  · rename_i hns
    exact absurd hstrat hns

/-- Counterexample to C5: with D = 1, M = 2, BACKOFF = 2, a single
update_from_error already saturates the multiplier at M = 2, and a
second update_from_error leaves it unchanged — not a strict increase. -/
theorem C5_counterexample :
    (update_from_error Cex 1 []
        (update_from_error Cex 0 [] (RateLimiter.init adaptiveCfgA))).config.dynamic_adjustments.adaptive_multiplier
      = (update_from_error Cex 0 []
          (RateLimiter.init adaptiveCfgA)).config.dynamic_adjustments.adaptive_multiplier
    ∧ (update_from_error Cex 0 []
        (RateLimiter.init adaptiveCfgA)).config.dynamic_adjustments.adaptive_multiplier = 2 :=
  ⟨by with_unfolding_all rfl, by with_unfolding_all rfl⟩

/-- C5 as amended: on an Adaptive limiter update_from_error sets the
multiplier to min(multiplier * BACKOFF, M) — a strict increase whenever
the multiplier was still below M (and positive, with BACKOFF > 1), never
exceeding M; and once more than EXPIRY seconds pass after the recorded
hit, the next acquire clears last_rate_limit_hit and resets the
multiplier to D. -/
theorem C5_amended (C : AdaptiveConstants) :
    (∀ (s : RateLimiter) (now : ℚ) (hs : List (String × String)),
       s.config.strategy = .adaptive →
       (update_from_error C now hs s).config.dynamic_adjustments.adaptive_multiplier
           = min (s.config.dynamic_adjustments.adaptive_multiplier * C.BACKOFF) C.M
       ∧ (1 < C.BACKOFF → 0 < s.config.dynamic_adjustments.adaptive_multiplier →
            s.config.dynamic_adjustments.adaptive_multiplier < C.M →
            s.config.dynamic_adjustments.adaptive_multiplier
              < (update_from_error C now hs s).config.dynamic_adjustments.adaptive_multiplier)
       ∧ (s.config.dynamic_adjustments.adaptive_multiplier ≤ C.M →
            (update_from_error C now hs s).config.dynamic_adjustments.adaptive_multiplier ≤ C.M))
    ∧ (∀ (s : RateLimiter) (now wake hts : ℚ),
       s.config.strategy = .adaptive →
       s.last_rate_limit_hit = some hts →
       C.EXPIRY < now - hts →
       C.D ≤ s.config.dynamic_adjustments.adaptive_multiplier →
       (acquire C now wake s).1.last_rate_limit_hit = none
       ∧ (acquire C now wake s).1.config.dynamic_adjustments.adaptive_multiplier = C.D) := by
  constructor
  · intro s now hs hstrat
    have heq := update_from_error_mult C now hs s
    rw [if_pos hstrat] at heq
    refine ⟨heq, ?_, ?_⟩
    · intro hB hpos hM
      rw [heq]
      refine lt_min ?_ hM
      calc s.config.dynamic_adjustments.adaptive_multiplier
          = s.config.dynamic_adjustments.adaptive_multiplier * 1 := by ring
        _ < s.config.dynamic_adjustments.adaptive_multiplier * C.BACKOFF :=
            mul_lt_mul_of_pos_left hB hpos
    · intro _
      rw [heq]
      exact min_le_right _ _
  · intro s now wake hts hstrat hh hexp hD
    have hcc : (cleanup_old_requests now s).config = s.config := cleanup_config now s
    have hres := expiry_adaptive_reset C now hts (cleanup_old_requests now s)
      (by rw [hcc]; exact hstrat)
      (by rw [cleanup_last_hit]; exact hh)
      hexp
      (by rw [hcc]; exact hD)
    refine ⟨?_, ?_⟩
    · rw [acquire_last_hit]; exact hres.1
    · rw [acquire_dyn]; exact hres.2

/-- Witness for the amended C5: from multiplier 1 an update_from_error
strictly increases it to min(2, 2) = 2; and an acquire 1000 seconds after
a hit at time 0 (EXPIRY = 900) clears the hit and resets the multiplier
to D = 1. -/
theorem C5_amended_witness :
    (update_from_error Cex 0 []
        (RateLimiter.init adaptiveCfgA)).config.dynamic_adjustments.adaptive_multiplier
      = min ((RateLimiter.init adaptiveCfgA).config.dynamic_adjustments.adaptive_multiplier
          * Cex.BACKOFF) Cex.M
    ∧ (RateLimiter.init adaptiveCfgA).config.dynamic_adjustments.adaptive_multiplier
        < (update_from_error Cex 0 []
            (RateLimiter.init adaptiveCfgA)).config.dynamic_adjustments.adaptive_multiplier
    ∧ (acquire Cex 1000 1000 adaptiveStateHit).1.last_rate_limit_hit = none
    ∧ (acquire Cex 1000 1000 adaptiveStateHit).1.config.dynamic_adjustments.adaptive_multiplier
        = Cex.D := by
  have h2 := (C5_amended Cex).2 adaptiveStateHit 1000 1000 0
    (by with_unfolding_all rfl) (by with_unfolding_all rfl)
    (of_decide_eq_true (by with_unfolding_all rfl))
    (of_decide_eq_true (by with_unfolding_all rfl))
  exact ⟨((C5_amended Cex).1 (RateLimiter.init adaptiveCfgA) 0 [] (by with_unfolding_all rfl)).1,
    ((C5_amended Cex).1 (RateLimiter.init adaptiveCfgA) 0 [] (by with_unfolding_all rfl)).2.1
      (of_decide_eq_true (by with_unfolding_all rfl))
      (of_decide_eq_true (by with_unfolding_all rfl))
      (of_decide_eq_true (by with_unfolding_all rfl)),
    h2.1, h2.2⟩

theorem should_wait_adaptive (now : ℚ) (s : RateLimiter) (h : s.config.strategy = .adaptive) :
    should_wait now s
      = decide ((s.requests.length : ℚ) ≥ (s.config.max_requests : ℚ) *
          (if truthyQ s.last_rate_limit_hit &&
              decide (now - s.last_rate_limit_hit.getD 0 < 60) then 9/10 else 1)) := by
  unfold should_wait
  rw [h]

theorem calc_wait_adaptive_retry (now : ℚ) (s : RateLimiter) (ra : ℤ) (ts0 : ℚ)
    (hstrat : s.config.strategy = .adaptive)
    (hne : s.requests ≠ [])
    (hra : s.config.dynamic_adjustments.retry_after = some ra)
    (hts : s.config.dynamic_adjustments.retry_after_timestamp = some ts0)
    (h60 : now - ts0 < 60)
    (hpos : 0 < (ra : ℚ) - (now - ts0)) :
    calculate_wait_time now s = (ra : ℚ) - (now - ts0) := by
  unfold calculate_wait_time
  rw [if_neg (by simpa using hne), hstrat]
  dsimp only
  rw [hra, hts]
  dsimp only
  rw [if_pos h60, if_pos hpos]

theorem update_from_response_adaptive (now : ℚ) (hs : List (String × String))
    (s : RateLimiter) (h : s.config.strategy = .adaptive) :
    update_from_response now hs s = process_rate_limit_headers now hs s := by
  unfold update_from_response
  rw [if_neg (by simp [h])]

theorem process_retry_fields (now : ℚ) (hs : List (String × String)) (s : RateLimiter)
    (v : String) (N : ℤ) (hv : hget hs "retry-after" = some v) (hN : pyInt? v = some N) :
    (process_rate_limit_headers now hs s).config.dynamic_adjustments.retry_after = some N
    ∧ (process_rate_limit_headers now hs s).config.dynamic_adjustments.retry_after_timestamp
        = some now := by
  unfold process_rate_limit_headers
  rw [hv]
  dsimp only
  rw [hN]
  dsimp only
  repeat' split
  all_goals exact ⟨rfl, rfl⟩

/-- C6: after update_from_response ingests a mapping whose retry-after
value parses as the integer N, an acquire at time t within 60s of the
ingestion time t0 whose should_wait check passes waits exactly
N - (t - t0) when that is positive — the retry-after directive takes
priority over the excess-times-multiplier computation. -/
theorem C6_retry_roundtrip (C : AdaptiveConstants) (s : RateLimiter)
    (hs : List (String × String)) (v : String) (N : ℤ) (t0 t wake : ℚ)
    (hstrat : s.config.strategy = .adaptive)
    (hv : hget hs "retry-after" = some v)
    (hN : pyInt? v = some N)
    (hm : 1 ≤ (check_rate_limit_expiry C t
        (cleanup_old_requests t (update_from_response t0 hs s))).config.max_requests)
    (hsw : should_wait t (check_rate_limit_expiry C t
        (cleanup_old_requests t (update_from_response t0 hs s))) = true)
    (h60 : t - t0 < 60)
    (hpos : 0 < (N : ℚ) - (t - t0)) :
    (acquire C t wake (update_from_response t0 hs s)).2 = (N : ℚ) - (t - t0) := by
  have hup : update_from_response t0 hs s = process_rate_limit_headers t0 hs s :=
    update_from_response_adaptive t0 hs s hstrat
  have hretry := process_retry_fields t0 hs s v N hv hN
  have hexc := expiry_config_frame C t (cleanup_old_requests t (update_from_response t0 hs s))
  have hcc := cleanup_config t (update_from_response t0 hs s)
  have hstrat2 : (check_rate_limit_expiry C t
      (cleanup_old_requests t (update_from_response t0 hs s))).config.strategy = .adaptive := by
    rw [hexc.1, hcc, hup, process_strategy]
    exact hstrat
  have hra2 : (check_rate_limit_expiry C t
      (cleanup_old_requests t (update_from_response t0 hs s))).config.dynamic_adjustments.retry_after
        = some N := by
    rw [hexc.2.2.2.2.2.2.1, hcc, hup]
    exact hretry.1
  have hts2 : (check_rate_limit_expiry C t
      (cleanup_old_requests t (update_from_response t0 hs s))).config.dynamic_adjustments.retry_after_timestamp
        = some t0 := by
    rw [hexc.2.2.2.2.2.2.2, hcc, hup]
    exact hretry.2
  have hne : (check_rate_limit_expiry C t
      (cleanup_old_requests t (update_from_response t0 hs s))).requests ≠ [] := by
    rw [should_wait_adaptive t _ hstrat2] at hsw
    have hlen := of_decide_eq_true hsw
    intro hnil
    rw [hnil] at hlen
    simp only [List.length_nil, Nat.cast_zero] at hlen
    have hm2 : (1 : ℚ) ≤ ((check_rate_limit_expiry C t
        (cleanup_old_requests t (update_from_response t0 hs s))).config.max_requests : ℚ) := by
      exact_mod_cast hm
    have hth : (9/10 : ℚ) ≤ (if truthyQ (check_rate_limit_expiry C t
          (cleanup_old_requests t (update_from_response t0 hs s))).last_rate_limit_hit &&
          decide (t - (check_rate_limit_expiry C t
            (cleanup_old_requests t (update_from_response t0 hs s))).last_rate_limit_hit.getD 0 < 60)
          then (9/10 : ℚ) else 1) := by
      split
      · exact le_refl _
      · norm_num
    have : (9/10 : ℚ) ≤ 0 := by
      calc (9/10 : ℚ) = 1 * (9/10) := by ring
        _ ≤ ((check_rate_limit_expiry C t
              (cleanup_old_requests t (update_from_response t0 hs s))).config.max_requests : ℚ)
              * _ := by
            exact mul_le_mul hm2 hth (by norm_num) (le_trans zero_le_one hm2)
        _ ≤ 0 := hlen
    norm_num at this
  rw [acquire_wait_of_wait C t wake _ hsw,
    calc_wait_adaptive_retry t _ N t0 hstrat2 hne hra2 hts2 h60 hpos,
    max_eq_right (le_of_lt hpos)]

/-- Witness for C6: an adaptive limiter with one live request ingests
retry-after 30 at time 0; the acquire at time 1 waits 29 seconds. -/
theorem C6_retry_roundtrip_witness :
    (acquire Cex 1 1 (update_from_response 0 [("retry-after", "30")] adaptiveState1)).2
      = ((30 : ℤ) : ℚ) - (1 - 0) :=
  C6_retry_roundtrip Cex adaptiveState1 [("retry-after", "30")] "30" 30 0 1 1
    (by with_unfolding_all rfl)
    (by with_unfolding_all rfl)
    (by with_unfolding_all rfl)
    (of_decide_eq_true (by with_unfolding_all rfl))
    (by with_unfolding_all rfl)
    (of_decide_eq_true (by with_unfolding_all rfl))
    (of_decide_eq_true (by with_unfolding_all rfl))

/-- Counterexample to C7: a Burst config supplying burst_size 5 with
max_requests 2 but leaving burst_window unset does NOT preserve the
caller-supplied burst_size — construction overwrites it with the default
2 * max_requests = 4, because the source defaults both fields whenever
either is unset. -/
theorem C7_counterexample :
    burstCfgSizeOnly.burst_size = some 5
    ∧ (RateLimiter.init burstCfgSizeOnly).config.burst_size = some 4
    ∧ (RateLimiter.init burstCfgSizeOnly).config.burst_size ≠ burstCfgSizeOnly.burst_size := by
  refine ⟨rfl, by with_unfolding_all rfl, ?_⟩
  intro h
  rw [(by with_unfolding_all rfl :
    (RateLimiter.init burstCfgSizeOnly).config.burst_size = some 4)] at h
  simp [burstCfgSizeOnly, strictCfgA] at h

theorem init_burst_defaults (cfg : RateLimitConfig)
    (hstrat : cfg.strategy = .burst)
    (h : (!truthyZ cfg.burst_size || !truthyQ cfg.burst_window) = true)
    (hm : 0 ≤ cfg.max_requests) :
    (RateLimiter.init cfg).config.burst_size = some (cfg.max_requests * 2)
    ∧ (RateLimiter.init cfg).config.burst_window = some 10 := by
  unfold RateLimiter.init
  dsimp only
  rw [if_pos hstrat, if_pos h]
  dsimp only
  have hfloor : ¬ ((some (cfg.max_requests * 2)).getD 0 < cfg.max_requests) := by
    simp only [Option.getD_some]
    omega
  rw [if_neg hfloor]
  exact ⟨rfl, rfl⟩

theorem init_burst_kept (cfg : RateLimitConfig)
    (hstrat : cfg.strategy = .burst)
    (h : (!truthyZ cfg.burst_size || !truthyQ cfg.burst_window) = false) :
    (RateLimiter.init cfg).config.burst_size
        = some (max (cfg.burst_size.getD 0) cfg.max_requests)
    ∧ (RateLimiter.init cfg).config.burst_window = cfg.burst_window := by
  unfold RateLimiter.init
  dsimp only
  have hcond : ¬ ((!truthyZ cfg.burst_size || !truthyQ cfg.burst_window) = true) := by
    rw [h]
    exact Bool.false_ne_true
  rw [if_pos hstrat, if_neg hcond]
  split
  · rename_i hlt
    rw [max_eq_right (le_of_lt hlt)]
    exact ⟨rfl, rfl⟩
  · rename_i hge
    rw [max_eq_left (not_lt.mp hge)]
    have h1 : truthyZ cfg.burst_size = true := by
      rcases Bool.or_eq_false_iff.mp h with ⟨h1, _⟩
      simpa using h1
    rcases hbs : cfg.burst_size with _ | b
    · rw [hbs] at h1
      simp [truthyZ] at h1
    · simp only [Option.getD_some]
      simp

/-- C7 as amended: at construction with the Burst strategy, if either
burst_size or burst_window is unset (or zero — Python truthiness), BOTH
are set to the defaults 2 * max_requests and 10 seconds; only when both
are supplied (nonzero) are they kept, with burst_size floored at
max_requests; in every case burst_size >= max_requests holds after
construction. -/
theorem C7_burst_defaults_amended (cfg : RateLimitConfig)
    (hstrat : cfg.strategy = .burst) (hm : 0 ≤ cfg.max_requests) :
    ((!truthyZ cfg.burst_size || !truthyQ cfg.burst_window) = true →
       (RateLimiter.init cfg).config.burst_size = some (cfg.max_requests * 2)
       ∧ (RateLimiter.init cfg).config.burst_window = some 10)
    ∧ ((!truthyZ cfg.burst_size || !truthyQ cfg.burst_window) = false →
       (RateLimiter.init cfg).config.burst_size
           = some (max (cfg.burst_size.getD 0) cfg.max_requests)
       ∧ (RateLimiter.init cfg).config.burst_window = cfg.burst_window)
    ∧ cfg.max_requests ≤ (RateLimiter.init cfg).config.burst_size.getD 0 := by
  refine ⟨fun h => init_burst_defaults cfg hstrat h hm,
    fun h => init_burst_kept cfg hstrat h, ?_⟩
  cases hbw : (!truthyZ cfg.burst_size || !truthyQ cfg.burst_window) with
  | true =>
    rw [(init_burst_defaults cfg hstrat hbw hm).1]
    simp only [Option.getD_some]
    omega
  | false =>
    rw [(init_burst_kept cfg hstrat hbw).1]
    simp only [Option.getD_some]
    exact le_max_right _ _

/-- Witness for the amended C7: with max_requests 2, burst_size 3 and
burst_window 1 both supplied, construction keeps burst_size (already at
least max_requests) and burst_size >= max_requests holds; with
burst_window unset (burstCfgSizeOnly) both fields get the defaults 4 and
10. -/
theorem C7_burst_defaults_amended_witness :
    ((RateLimiter.init burstCfgA).config.burst_size
        = some (max (burstCfgA.burst_size.getD 0) burstCfgA.max_requests)
      ∧ (RateLimiter.init burstCfgA).config.burst_window = burstCfgA.burst_window)
    ∧ burstCfgA.max_requests ≤ (RateLimiter.init burstCfgA).config.burst_size.getD 0
    ∧ ((RateLimiter.init burstCfgSizeOnly).config.burst_size
        = some (burstCfgSizeOnly.max_requests * 2)
      ∧ (RateLimiter.init burstCfgSizeOnly).config.burst_window = some 10) :=
  ⟨(C7_burst_defaults_amended burstCfgA rfl (by decide)).2.1 (by with_unfolding_all rfl),
   (C7_burst_defaults_amended burstCfgA rfl (by decide)).2.2,
   (C7_burst_defaults_amended burstCfgSizeOnly rfl (by decide)).1 (by with_unfolding_all rfl)⟩

/-- C8: reset_rate_limit_tracking clears last_rate_limit_hit, restores
the adaptive multiplier to D exactly when the strategy is Adaptive, and
leaves every other part of the limiter state unchanged — histories,
counters, the other config fields and the retry-after record. -/
theorem C8_reset_frame (C : AdaptiveConstants) (s : RateLimiter) :
    (reset_rate_limit_tracking C s).last_rate_limit_hit = none
    ∧ (reset_rate_limit_tracking C s).config.dynamic_adjustments.adaptive_multiplier
        = (if s.config.strategy = .adaptive then C.D
           else s.config.dynamic_adjustments.adaptive_multiplier)
    ∧ (reset_rate_limit_tracking C s).requests = s.requests
    ∧ (reset_rate_limit_tracking C s).burst_requests = s.burst_requests
    ∧ (reset_rate_limit_tracking C s).total_requests = s.total_requests
    ∧ (reset_rate_limit_tracking C s).total_wait_time = s.total_wait_time
    ∧ (reset_rate_limit_tracking C s).max_wait_time = s.max_wait_time
    ∧ (reset_rate_limit_tracking C s).rate_limit_hits = s.rate_limit_hits
    ∧ (reset_rate_limit_tracking C s).last_dynamic_update = s.last_dynamic_update
    ∧ (reset_rate_limit_tracking C s).config.strategy = s.config.strategy
    ∧ (reset_rate_limit_tracking C s).config.max_requests = s.config.max_requests
    ∧ (reset_rate_limit_tracking C s).config.time_window = s.config.time_window
    ∧ (reset_rate_limit_tracking C s).config.burst_size = s.config.burst_size
    ∧ (reset_rate_limit_tracking C s).config.burst_window = s.config.burst_window
    ∧ (reset_rate_limit_tracking C s).config.cooldown_period = s.config.cooldown_period
    ∧ (reset_rate_limit_tracking C s).config.dynamic_adjustments.retry_after
        = s.config.dynamic_adjustments.retry_after
    ∧ (reset_rate_limit_tracking C s).config.dynamic_adjustments.retry_after_timestamp
        = s.config.dynamic_adjustments.retry_after_timestamp := by
  refine ⟨?_, reset_mult C s, ?_, ?_, ?_, ?_, ?_, ?_, ?_, ?_, ?_, ?_, ?_, ?_, ?_, ?_, ?_⟩
  all_goals unfold reset_rate_limit_tracking
  all_goals dsimp only
  all_goals repeat' split
  all_goals rfl

theorem scan_foldl_const (now : ℚ) (hs : List (String × String)) :
    ∀ (names : List String) (acc : HeaderScan),
      (∀ n ∈ names, ∀ v, hget hs n = some v → firstDigitRun v = none) →
      names.foldl (fun acc name =>
        match hget hs name with
        | none => acc
        | some v =>
          match firstDigitRun v with
          | none => acc
          | some d => classifyHeader now acc name d) acc = acc := by
  intro names
  induction names with
  | nil => intro acc _; rfl
  | cons n ns ih =>
    intro acc h
    rw [List.foldl_cons]
    have hstep : (match hget hs n with
        | none => acc
        | some v =>
          match firstDigitRun v with
          | none => acc
          | some d => classifyHeader now acc n d) = acc := by
      cases hg : hget hs n with
      | none => rfl
      | some v =>
        dsimp only
        rw [h n (List.mem_cons_self n ns) v hg]
    rw [hstep]
    exact ih acc (fun m hm v hv => h m (List.mem_cons_of_mem n hm) v hv)

theorem scanHeaders_none (now : ℚ) (hs : List (String × String))
    (h : ∀ n ∈ RATE_LIMIT_HEADERS, ∀ v, hget hs n = some v → firstDigitRun v = none) :
    scanHeaders now hs = ⟨none, none, none⟩ := by
  unfold scanHeaders
  exact scan_foldl_const now hs RATE_LIMIT_HEADERS ⟨none, none, none⟩ h

/-- C9: header ingestion never fails on malformed data — the embedding
is total, a retry-after value that int() cannot parse leaves the
retry-after record untouched, header values without a digit run change
none of the scan-derived settings, a mapping with no recognized headers
is a complete no-op on the state, and a recognized limit header is still
applied regardless of the other fields. -/
theorem C9_header_robustness (now : ℚ) (hs : List (String × String)) (s : RateLimiter) :
    ((∀ n ∈ RATE_LIMIT_HEADERS, hget hs n = none) →
       process_rate_limit_headers now hs s = s)
    ∧ (∀ v, hget hs "retry-after" = some v → pyInt? v = none →
       (process_rate_limit_headers now hs s).config.dynamic_adjustments.retry_after
           = s.config.dynamic_adjustments.retry_after
       ∧ (process_rate_limit_headers now hs s).config.dynamic_adjustments.retry_after_timestamp
           = s.config.dynamic_adjustments.retry_after_timestamp)
    ∧ ((∀ n ∈ RATE_LIMIT_HEADERS, ∀ v, hget hs n = some v → firstDigitRun v = none) →
       (process_rate_limit_headers now hs s).config.time_window = s.config.time_window
       ∧ (process_rate_limit_headers now hs s).config.max_requests = s.config.max_requests
       ∧ (process_rate_limit_headers now hs s).config.dynamic_adjustments.time_window
           = s.config.dynamic_adjustments.time_window
       ∧ (process_rate_limit_headers now hs s).config.dynamic_adjustments.max_requests
           = s.config.dynamic_adjustments.max_requests
       ∧ (process_rate_limit_headers now hs s).config.dynamic_adjustments.remaining
           = s.config.dynamic_adjustments.remaining)
    ∧ (∀ l, (scanHeaders now hs).limit = some l →
       (process_rate_limit_headers now hs s).config.max_requests = l) := by
  refine ⟨?_, ?_, ?_, ?_⟩
  · intro h
    have hr : hget hs "retry-after" = none := h "retry-after" (by simp [RATE_LIMIT_HEADERS])
    have hscan : scanHeaders now hs = ⟨none, none, none⟩ :=
      scanHeaders_none now hs (fun n hn v hv => by rw [h n hn] at hv; cases hv)
    unfold process_rate_limit_headers
    rw [hr, hscan]
    dsimp only
    rfl
  · intro v hv hN
    unfold process_rate_limit_headers
    rw [hv]
    dsimp only
    rw [hN]
    dsimp only
    repeat' split
    all_goals exact ⟨rfl, rfl⟩
  · intro h
    have hscan : scanHeaders now hs = ⟨none, none, none⟩ := scanHeaders_none now hs h
    unfold process_rate_limit_headers
    rw [hscan]
    dsimp only
    repeat' split
    all_goals exact ⟨rfl, rfl, rfl, rfl, rfl⟩
  · intro l hl
    unfold process_rate_limit_headers
    generalize hg : scanHeaders now hs = scan0
    rw [hg] at hl
    obtain ⟨rt, lim, rem⟩ := scan0
    dsimp only at hl
    subst hl
    dsimp only
    repeat' split
    all_goals rfl

/-- Witness for C9: an unrecognized mapping is a no-op, a non-numeric
retry-after leaves the retry record unset, and a limit header is still
applied alongside a malformed retry-after. -/
theorem C9_header_robustness_witness :
    process_rate_limit_headers 5 [("foo", "1")] (RateLimiter.init adaptiveCfgA)
        = RateLimiter.init adaptiveCfgA
    ∧ (process_rate_limit_headers 5 [("retry-after", "abc")]
        (RateLimiter.init adaptiveCfgA)).config.dynamic_adjustments.retry_after
        = (RateLimiter.init adaptiveCfgA).config.dynamic_adjustments.retry_after
    ∧ (process_rate_limit_headers 5 [("retry-after", "abc"), ("x-ratelimit-limit", "7")]
        (RateLimiter.init adaptiveCfgA)).config.max_requests = 7 := by
  refine ⟨(C9_header_robustness 5 [("foo", "1")] (RateLimiter.init adaptiveCfgA)).1
      (of_decide_eq_true (by with_unfolding_all rfl)),
    ((C9_header_robustness 5 [("retry-after", "abc")] (RateLimiter.init adaptiveCfgA)).2.1
      "abc" (by with_unfolding_all rfl) (by with_unfolding_all rfl)).1,
    (C9_header_robustness 5 [("retry-after", "abc"), ("x-ratelimit-limit", "7")]
      (RateLimiter.init adaptiveCfgA)).2.2.2 7 (by with_unfolding_all rfl)⟩

theorem record_burst_requests (now : ℚ) (s : RateLimiter)
    (h : s.config.strategy = .burst) :
    (record_request now s).burst_requests = s.burst_requests ++ [now] := by
  unfold record_request
  dsimp only
  rw [if_pos h]

/-- C10: the timestamp acquire appends to the request history (and to
the burst history under the Burst strategy) is the entry-time clock
value `now`, even on a call that slept; the charged wait is nonnegative,
and at the post-sleep clock `wake` the freshly appended entry is already
`wake - now` old — i.e. exactly the slept wait when `wake = now + wait`. -/
theorem C10_entry_timestamp (C : AdaptiveConstants) (now wake : ℚ) (s : RateLimiter) :
    (acquire C now wake s).1.requests.getLast? = some now
    ∧ (s.config.strategy = .burst →
        (acquire C now wake s).1.burst_requests.getLast? = some now)
    ∧ 0 ≤ (acquire C now wake s).2
    ∧ ((acquire C now wake s).1.requests.getLast?).map (fun u => wake - u)
        = some (wake - now) := by
  have h1 : ∀ (l : List ℚ), (l ++ [now]).getLast? = some now := by
    intro l
    rw [List.getLast?_concat]
  have hfst : (acquire C now wake s).1.requests.getLast? = some now := by
    unfold acquire
    dsimp only
    split
    · split
      · rw [record_requests]; exact h1 _
      · rw [record_requests]; exact h1 _
    · rw [record_requests]; exact h1 _
  refine ⟨hfst, ?_, ?_, ?_⟩
  · intro hb
    have hgen : ∀ (r : RateLimiter), r.config.strategy = .burst →
        (record_request now r).burst_requests.getLast? = some now := by
      intro r hr
      rw [record_burst_requests now r hr, List.getLast?_concat]
    unfold acquire
    dsimp only
    split
    · split
      · refine hgen _ ?_
        rw [cleanup_config]
        dsimp only
        rw [(expiry_config_frame C now (cleanup_old_requests now s)).1, cleanup_config]
        exact hb
      · refine hgen _ ?_
        rw [(expiry_config_frame C now (cleanup_old_requests now s)).1, cleanup_config]
        exact hb
    · refine hgen _ ?_
      rw [(expiry_config_frame C now (cleanup_old_requests now s)).1, cleanup_config]
      exact hb
  · unfold acquire
    dsimp only
    split
    · split
      · rename_i hpos
        exact le_of_lt hpos
      · exact le_refl 0
    · exact le_refl 0
  · rw [hfst]
    rfl

/-- Witness for C10: on the saturated burst limiter both histories end
with the entry timestamp 0 after an acquire entered at time 0. -/
theorem C10_entry_timestamp_witness :
    (acquire Cex 0 5 burstSatState).1.requests.getLast? = some 0
    ∧ (acquire Cex 0 5 burstSatState).1.burst_requests.getLast? = some 0 :=
  ⟨(C10_entry_timestamp Cex 0 5 burstSatState).1,
   (C10_entry_timestamp Cex 0 5 burstSatState).2.1 (by with_unfolding_all rfl)⟩

end RateLimitEx
